import Mathlib

/-!
Verification of the simple-tools-server key-value plugin
(src/servers/simple-tools-server/main.py).

The server keeps a process-wide mapping `user_data_stores` from user
identifier to a per-user key-value table (a Python dict).  Three tools
(store_data, retrieve_data, list_data) are dispatched by
`handle_call_tool`, gated by a credential lookup.  We embed the dicts as
association lists with Python-dict semantics (update in place keeps the
position of the key, fresh keys are appended), and the dispatch handler
as a pure function from the global store and the call inputs to a pair
of (response or raised error, new global store).  The nondeterministic
parts of a response (the random id suffix, the timestamp) are threaded
as explicit inputs.
-/

/-- A per-user key-value table: a Python dict from string keys to string
values, kept as an insertion-ordered association list. -/
abbrev KVTable := List (String × String)

/-- Python `d.get(k)` on a string-keyed dict. -/
def kvLookup : KVTable → String → Option String
  | [], _ => none
  | (k', v') :: rest, k => if k' = k then some v' else kvLookup rest k

/-- Python `d[k] = v`: update in place when the key is present (keeping
its position), otherwise append the new pair. -/
def kvInsert : KVTable → String → String → KVTable
  | [], k, v => [(k, v)]
  | (k', v') :: rest, k, v =>
      if k' = k then (k', v) :: rest else (k', v') :: kvInsert rest k v

/-- The global `user_data_stores` dict.  Its keys model Python values
used as dict keys for a user id: `none` embeds Python `None`, `some s`
embeds the string `s`. -/
abbrev UserStores := List (Option String × KVTable)

/-- Python `user_data_stores.get(u)`. -/
def storesLookup : UserStores → Option String → Option KVTable
  | [], _ => none
  | (u', t) :: rest, u => if u' = u then some t else storesLookup rest u

/-- Python `user_data_stores[u] = t`. -/
def storesInsert : UserStores → Option String → KVTable → UserStores
  | [], u, t => [(u, t)]
  | (u', t') :: rest, u, t =>
      if u' = u then (u', t) :: rest else (u', t') :: storesInsert rest u t

/-- Python truthiness of a user id (`if current_user:`): `None` and the
empty string are falsy. -/
def truthyUser : Option String → Bool
  | none => false
  | some s => !(s == "")

/-- Python truthiness test `not x` for an optional string (`None` and
the empty string are falsy). -/
def falsyOptStr : Option String → Bool
  | none => true
  | some s => s == ""

/-- Python `str(current_user)` as interpolated into the credential error
message. -/
def pyStr : Option String → String
  | none => "None"
  | some s => s

/-- The value returned by the external auth client call
`auth_client.get_user_credentials("simple-tools", user_id)`: Python
`None`, a plain string, or a dict (modelled as a string-keyed
association list, as saved by `authenticate_and_save_credentials`). -/
inductive CredData where
  | pyNone : CredData
  | str (s : String) : CredData
  | obj (fields : List (String × String)) : CredData
deriving Repr, DecidableEq

/-- Python truthiness test `if not credentials_data:`. -/
def credFalsy : CredData → Bool
  | .pyNone => true
  | .str s => s == ""
  | .obj fields => fields.isEmpty

/-- `credentials_data.get("api_key") if not isinstance(credentials_data, str)
else credentials_data` (on `None` the code never reaches this point, and
Python `.get` on it would not exist; we return `none`, matching the
falsy short-circuit). -/
def credApiKey : CredData → Option String
  | .pyNone => none
  | .str s => some s
  | .obj fields => kvLookup fields "api_key"

/-- The error message of `handle_missing_credentials`, with `envLocal`
embedding `os.environ.get("ENVIRONMENT", "local") == "local"`. -/
def missingCredMsg (user_id : Option String) (envLocal : Bool) : String :=
  "Simple Tools API key not found for user " ++ pyStr user_id ++ "." ++
    (if envLocal then " Please run authentication first." else "")

/-- `get_simple_tools_credentials`: resolve a usable api key from the
externally returned credential data, raising (here: `Except.error`) when
the data is falsy or yields a falsy api key. -/
def get_simple_tools_credentials (user_id : Option String) (envLocal : Bool)
    (credentials_data : CredData) : Except String String :=
  if credFalsy credentials_data then
    .error (missingCredMsg user_id envLocal)
  else
    match credApiKey credentials_data with
    | none => .error (missingCredMsg user_id envLocal)
    | some api_key =>
        if api_key = "" then .error (missingCredMsg user_id envLocal)
        else .ok api_key

/-- The JSON result object built by a successful tool branch.  Fields
that only some branches set are optional. -/
structure ResultRecord where
  id : String
  status : String
  action : String
  message : String
  timestamp : Int
  key : Option String := none
  value : Option String := none
  data : Option KVTable := none
  count : Option Nat := none
  formatted_list : Option String := none
  authenticated : Option Bool := none
deriving Repr, DecidableEq

/-- What the handler returns to the framework: either the plain
authentication-error text, or a result record (serialized by the code
with `json.dumps`). -/
inductive ToolResponse where
  | text (s : String) : ToolResponse
  | record (r : ResultRecord) : ToolResponse
deriving Repr, DecidableEq

/-- The result record of a successful `store_data`. -/
def storeRecord (k v idHex : String) (now : Int) : ResultRecord :=
  { id := "store_" ++ idHex
    status := "success"
    action := "store"
    key := some k
    value := some v
    message := "Stored \x27" ++ k ++ "\x27 with value: " ++ v
    authenticated := some true
    timestamp := now }

/-- The result record of `retrieve_data` when the key is absent. -/
def retrieveNotFoundRecord (k idHex : String) (now : Int) : ResultRecord :=
  { id := "retrieve_" ++ idHex
    status := "not_found"
    action := "retrieve"
    key := some k
    message := "Key \x27" ++ k ++ "\x27 not found"
    timestamp := now }

/-- The result record of `retrieve_data` when the key is present with
value `v`. -/
def retrieveSuccessRecord (k v idHex : String) (now : Int) : ResultRecord :=
  { id := "retrieve_" ++ idHex
    status := "success"
    action := "retrieve"
    key := some k
    value := some v
    message := "Value for \x27" ++ k ++ "\x27: " ++ v
    timestamp := now }

/-- The result record of `list_data` on an empty table. -/
def listEmptyRecord (idHex : String) (now : Int) : ResultRecord :=
  { id := "list_" ++ idHex
    status := "empty"
    action := "list"
    data := some []
    count := some 0
    message := "No data stored"
    timestamp := now }

/-- The result record of `list_data` on a non-empty table. -/
def listSuccessRecord (t : KVTable) (idHex : String) (now : Int) : ResultRecord :=
  { id := "list_" ++ idHex
    status := "success"
    action := "list"
    data := some t
    count := some t.length
    message := "Found " ++ toString t.length ++ " items"
    formatted_list :=
      some (String.intercalate "\n" (t.map fun p => "- " ++ p.1 ++ ": " ++ p.2))
    timestamp := now }

/-- The tool-call arguments dict (values of the declared input schemas
are strings); the whole dict may be Python `None`. -/
abbrev Args := List (String × String)

/-- `handle_call_tool`: the dispatch handler.  Inputs beyond the call
itself: `stores` is the global `user_data_stores`, `current_user` is
`getattr(server, "user_id", None)`, `credentials_data` is what the
external auth client returns for this user, `envLocal` the ENVIRONMENT
check, `idHex` the random `uuid4().hex[:8]` suffix and `now` the
`int(time.time())` timestamp of this call.  The result is the returned
response (`Except.ok`) or the raised `ValueError` message
(`Except.error`), paired with the global store after the call. -/
def handle_call_tool (stores : UserStores) (current_user : Option String)
    (credentials_data : CredData) (envLocal : Bool)
    (name : String) (arguments : Option Args)
    (idHex : String) (now : Int) :
    Except String ToolResponse × UserStores :=
  match get_simple_tools_credentials current_user envLocal credentials_data with
  | .error e => (.ok (.text ("Authentication error: " ++ e)), stores)
  | .ok _api_key =>
    let data_store := (storesLookup stores current_user).getD []
    if name = "store_data" then
      match arguments with
      | none => (.error "Missing arguments", stores)
      | some args =>
        if args = [] then (.error "Missing arguments", stores)
        else
          match kvLookup args "key", kvLookup args "value" with
          | some key, some value =>
              if key = "" ∨ value = "" then
                (.error "Missing key or value", stores)
              else
                let newStore := kvInsert data_store key value
                -- `data_store[key] = value` mutates the stored dict in
                -- place when `current_user` is a key of the global
                -- store (the dict is aliased); the explicit write-back
                -- only runs for a truthy user.
                let stores' :=
                  if (storesLookup stores current_user).isSome
                      || truthyUser current_user then
                    storesInsert stores current_user newStore
                  else stores
                (.ok (.record (storeRecord key value idHex now)), stores')
          | _, _ => (.error "Missing key or value", stores)
    else if name = "retrieve_data" then
      match arguments with
      | none => (.error "Missing arguments", stores)
      | some args =>
        if args = [] then (.error "Missing arguments", stores)
        else
          match kvLookup args "key" with
          | none => (.error "Missing key", stores)
          | some key =>
              if key = "" then (.error "Missing key", stores)
              else
                match kvLookup data_store key with
                | none =>
                    (.ok (.record (retrieveNotFoundRecord key idHex now)), stores)
                | some v =>
                    (.ok (.record (retrieveSuccessRecord key v idHex now)), stores)
    else if name = "list_data" then
      if data_store = [] then
        (.ok (.record (listEmptyRecord idHex now)), stores)
      else
        (.ok (.record (listSuccessRecord data_store idHex now)), stores)
    else
      (.error ("Unknown tool: " ++ name), stores)

/-- The effect of `create_server` on the global store: a truthy user id
gets an empty table on first reference; a falsy one changes nothing. -/
def create_server_stores (stores : UserStores) (user_id : Option String) :
    UserStores :=
  if truthyUser user_id then
    if (storesLookup stores user_id).isSome then stores
    else storesInsert stores user_id []
  else stores

example :
    handle_call_tool [] (some "u") (.obj [("api_key", "k")]) true
      "store_data" (some [("key", "a"), ("value", "b")]) "deadbeef" 7 =
    (.ok (.record (storeRecord "a" "b" "deadbeef" 7)),
      [(some "u", [("a", "b")])]) := by
  rfl

/-! ### Dictionary lemmas -/

theorem kvLookup_kvInsert_self (t : KVTable) (k v : String) :
    kvLookup (kvInsert t k v) k = some v := by
  induction t with
  | nil => simp [kvInsert, kvLookup]
  | cons p rest ih =>
      by_cases h : p.1 = k
      · simp [kvInsert, kvLookup, h]
      · simp [kvInsert, kvLookup, h, ih]

theorem kvLookup_kvInsert_ne (t : KVTable) (k v k' : String) (h : k ≠ k') :
    kvLookup (kvInsert t k v) k' = kvLookup t k' := by
  induction t with
  | nil => simp [kvInsert, kvLookup, h]
  | cons p rest ih =>
      by_cases hp : p.1 = k
      · simp [kvInsert, kvLookup, hp, h]
      · simp [kvInsert, kvLookup, hp, ih]

theorem storesLookup_storesInsert_self (s : UserStores) (u : Option String)
    (t : KVTable) : storesLookup (storesInsert s u t) u = some t := by
  induction s with
  | nil => simp [storesInsert, storesLookup]
  | cons p rest ih =>
      by_cases h : p.1 = u
      · simp [storesInsert, storesLookup, h]
      · simp [storesInsert, storesLookup, h, ih]

theorem storesLookup_storesInsert_ne (s : UserStores) (u u' : Option String)
    (t : KVTable) (h : u ≠ u') :
    storesLookup (storesInsert s u t) u' = storesLookup s u' := by
  induction s with
  | nil => simp [storesInsert, storesLookup, h]
  | cons p rest ih =>
      by_cases hp : p.1 = u
      · simp [storesInsert, storesLookup, hp, h]
      · simp [storesInsert, storesLookup, hp, ih]

theorem kvLookup_eq_none_iff (t : KVTable) (k : String) :
    kvLookup t k = none ↔ k ∉ t.map Prod.fst := by
  induction t with
  | nil => simp [kvLookup]
  | cons p rest ih =>
      rw [kvLookup]
      by_cases h : p.1 = k
      · simp [h]
      · rw [if_neg h]
        simp only [List.map_cons, List.mem_cons, not_or]
        constructor
        · intro hn
          exact ⟨fun hk => h hk.symm, ih.mp hn⟩
        · intro hp
          exact ih.mpr hp.2

theorem kvInsert_of_lookup_none (t : KVTable) (k v : String)
    (h : kvLookup t k = none) : kvInsert t k v = t ++ [(k, v)] := by
  induction t with
  | nil => simp [kvInsert]
  | cons p rest ih =>
      rw [kvLookup] at h
      by_cases hp : p.1 = k
      · simp [hp] at h
      · simp [kvInsert, hp, ih (by simpa [hp] using h)]

theorem kvInsert_keys_of_lookup_some (t : KVTable) (k v w : String)
    (h : kvLookup t k = some w) :
    (kvInsert t k v).map Prod.fst = t.map Prod.fst := by
  induction t with
  | nil => simp [kvLookup] at h
  | cons p rest ih =>
      rw [kvLookup] at h
      by_cases hp : p.1 = k
      · simp [kvInsert, hp]
      · rw [if_neg hp] at h
        simp [kvInsert, hp, ih h]

/-! ### Claim theorems -/

/-- C2: whenever the credential lookup fails for the calling user (no
credentials found, or found credentials yield an empty api key), any
tool call returns the visible authentication-error text instead of
raising, and the global user store is unchanged. -/
theorem auth_failure_short_circuits (stores : UserStores)
    (u : Option String) (cd : CredData) (envLocal : Bool)
    (name : String) (args : Option Args) (idHex : String) (now : Int)
    (h : credFalsy cd = true ∨ falsyOptStr (credApiKey cd) = true) :
    handle_call_tool stores u cd envLocal name args idHex now =
      (.ok (.text ("Authentication error: " ++ missingCredMsg u envLocal)),
        stores) := by
  have hga : get_simple_tools_credentials u envLocal cd =
      .error (missingCredMsg u envLocal) := by
    rcases h with h | h
    · simp [get_simple_tools_credentials, h]
    · unfold get_simple_tools_credentials
      rcases hk : credApiKey cd with _ | k
      · simp
      · rw [hk] at h
        simp [falsyOptStr] at h
        simp [h]
  simp [handle_call_tool, hga]

/-- C2 witness at a concrete failing credential payload. -/
theorem auth_failure_short_circuits_witness :
    handle_call_tool [(some "u", [("a", "b")])] (some "u")
        (.obj [("api_key", "")]) true "store_data"
        (some [("key", "x"), ("value", "y")]) "cafebabe" 3 =
      (.ok (.text ("Authentication error: " ++
          missingCredMsg (some "u") true)),
        [(some "u", [("a", "b")])]) :=
  auth_failure_short_circuits _ _ _ _ _ _ _ _ (Or.inr (by decide))

/-- C7: when the requested tool name matches none of the three tools,
dispatch raises `ValueError("Unknown tool: <name>")` out of the handler
(an `Except.error`, not a returned text response). -/
theorem unknown_tool_raises (stores : UserStores) (u : Option String)
    (cd : CredData) (envLocal : Bool) (name : String) (args : Option Args)
    (idHex : String) (now : Int) (api_key : String)
    (hauth : get_simple_tools_credentials u envLocal cd = .ok api_key)
    (h1 : name ≠ "store_data") (h2 : name ≠ "retrieve_data")
    (h3 : name ≠ "list_data") :
    handle_call_tool stores u cd envLocal name args idHex now =
      (.error ("Unknown tool: " ++ name), stores) := by
  simp [handle_call_tool, hauth, h1, h2, h3]

/-- C7 witness at a concrete unknown tool name. -/
theorem unknown_tool_raises_witness :
    handle_call_tool [] (some "u") (.str "k") true "delete_data" none
        "cafebabe" 3 =
      (.error ("Unknown tool: " ++ "delete_data"), []) :=
  unknown_tool_raises _ _ _ _ _ _ _ _ "k" (by rfl)
    (by decide) (by decide) (by decide)

/-- C9: any call whose tool name is not `store_data` (in particular
`retrieve_data` and `list_data`) leaves the global user store exactly as
it was, whatever the arguments, user and credential outcome; only
`store_data` mutates it. -/
theorem non_store_preserves_stores (stores : UserStores)
    (u : Option String) (cd : CredData) (envLocal : Bool) (name : String)
    (args : Option Args) (idHex : String) (now : Int)
    (h : name ≠ "store_data") :
    (handle_call_tool stores u cd envLocal name args idHex now).2 =
      stores := by
  rcases hga : get_simple_tools_credentials u envLocal cd with m | k <;>
    simp only [handle_call_tool, hga, if_neg h]
  repeat' split
  all_goals rfl

/-- C3: for an authenticated user, retrieving a non-empty key that is
not present in that user's table returns the `not_found` record (a
normal result, not a raised error) and leaves the store unchanged. -/
theorem retrieve_missing_key_not_found (stores : UserStores)
    (u : Option String) (cd : CredData) (envLocal : Bool)
    (args : Args) (k api_key idHex : String) (now : Int)
    (hauth : get_simple_tools_credentials u envLocal cd = .ok api_key)
    (hk : kvLookup args "key" = some k) (hne : k ≠ "")
    (habsent : kvLookup ((storesLookup stores u).getD []) k = none) :
    handle_call_tool stores u cd envLocal "retrieve_data" (some args)
        idHex now =
      (.ok (.record (retrieveNotFoundRecord k idHex now)), stores) := by
  have hargs : args ≠ [] := by
    intro h
    subst h
    simp [kvLookup] at hk
  simp [handle_call_tool, hauth, hargs, hk, hne, habsent]

/-- C3 witness at a concrete absent key. -/
theorem retrieve_missing_key_not_found_witness :
    handle_call_tool [(some "u", [("a", "b")])] (some "u") (.str "k")
        true "retrieve_data" (some [("key", "zzz")]) "cafebabe" 3 =
      (.ok (.record (retrieveNotFoundRecord "zzz" "cafebabe" 3)),
        [(some "u", [("a", "b")])]) :=
  retrieve_missing_key_not_found _ _ _ _ _ _ "k" _ _ (by rfl)
    (by decide) (by decide) (by decide)

/-- Whether the handler outcome is a raised `ValueError` (propagated to
the host framework) rather than a returned response. -/
def raised : Except String ToolResponse → Bool
  | .error _ => true
  | .ok _ => false

/-- Modelled from the spec: "Fails with `InvalidArgument` when `key` or
`value` is missing/empty" — the spec-side validity predicate for
`store_data` arguments (an absent arguments object counts as a missing
key). -/
def specStoreArgsInvalid (arguments : Option Args) : Bool :=
  falsyOptStr (arguments.bind fun a => kvLookup a "key") ||
    falsyOptStr (arguments.bind fun a => kvLookup a "value")

/-- Modelled from the spec: "Fails with `InvalidArgument` when `key` is
missing" (or empty) — the spec-side validity predicate for
`retrieve_data` arguments. -/
def specRetrieveArgsInvalid (arguments : Option Args) : Bool :=
  falsyOptStr (arguments.bind fun a => kvLookup a "key")

/-- Case analysis of the `store_data` branch: the call raises exactly
when the spec-side argument-validity check fails, and otherwise returns
a record. -/
theorem store_invalid_cases (stores : UserStores) (u : Option String)
    (cd : CredData) (envLocal : Bool) (args : Option Args)
    (api_key idHex : String) (now : Int)
    (hauth : get_simple_tools_credentials u envLocal cd = .ok api_key) :
    (specStoreArgsInvalid args = true ∧
      raised (handle_call_tool stores u cd envLocal "store_data" args
        idHex now).1 = true) ∨
    (specStoreArgsInvalid args = false ∧
      ∃ r, (handle_call_tool stores u cd envLocal "store_data" args
        idHex now).1 = .ok (.record r)) := by
  rcases args with _ | a
  · exact Or.inl (by simp [handle_call_tool, hauth, raised,
      specStoreArgsInvalid, falsyOptStr])
  · by_cases ha : a = []
    · subst ha
      exact Or.inl (by simp [handle_call_tool, hauth, raised,
        specStoreArgsInvalid, falsyOptStr, kvLookup])
    · rcases hk : kvLookup a "key" with _ | k
      · exact Or.inl (by simp [handle_call_tool, hauth, raised,
          specStoreArgsInvalid, falsyOptStr, ha, hk])
      · rcases hv : kvLookup a "value" with _ | v
        · exact Or.inl (by simp [handle_call_tool, hauth, raised,
            specStoreArgsInvalid, falsyOptStr, ha, hk, hv])
        · by_cases hke : k = ""
          · exact Or.inl (by simp [handle_call_tool, hauth, raised,
              specStoreArgsInvalid, falsyOptStr, ha, hk, hv, hke])
          · by_cases hve : v = ""
            · exact Or.inl (by simp [handle_call_tool, hauth, raised,
                specStoreArgsInvalid, falsyOptStr, ha, hk, hv, hke, hve])
            · refine Or.inr ⟨by simp [specStoreArgsInvalid, falsyOptStr,
                hk, hv, hke, hve], storeRecord k v idHex now, ?_⟩
              simp [handle_call_tool, hauth, ha, hk, hv, hke, hve]

/-- Case analysis of the `retrieve_data` branch: the call raises exactly
when the spec-side argument-validity check fails, and otherwise returns
a record. -/
theorem retrieve_invalid_cases (stores : UserStores) (u : Option String)
    (cd : CredData) (envLocal : Bool) (args : Option Args)
    (api_key idHex : String) (now : Int)
    (hauth : get_simple_tools_credentials u envLocal cd = .ok api_key) :
    (specRetrieveArgsInvalid args = true ∧
      raised (handle_call_tool stores u cd envLocal "retrieve_data" args
        idHex now).1 = true) ∨
    (specRetrieveArgsInvalid args = false ∧
      ∃ r, (handle_call_tool stores u cd envLocal "retrieve_data" args
        idHex now).1 = .ok (.record r)) := by
  rcases args with _ | a
  · exact Or.inl (by simp [handle_call_tool, hauth, raised,
      specRetrieveArgsInvalid, falsyOptStr])
  · by_cases ha : a = []
    · subst ha
      exact Or.inl (by simp [handle_call_tool, hauth, raised,
        specRetrieveArgsInvalid, falsyOptStr, kvLookup])
    · rcases hk : kvLookup a "key" with _ | k
      · exact Or.inl (by simp [handle_call_tool, hauth, raised,
          specRetrieveArgsInvalid, falsyOptStr, ha, hk])
      · by_cases hke : k = ""
        · exact Or.inl (by simp [handle_call_tool, hauth, raised,
            specRetrieveArgsInvalid, falsyOptStr, ha, hk, hke])
        · refine Or.inr ⟨by simp [specRetrieveArgsInvalid, falsyOptStr,
            hk, hke], ?_⟩
          rcases hd : kvLookup ((storesLookup stores u).getD []) k
            with _ | v
          · exact ⟨retrieveNotFoundRecord k idHex now,
              by simp [handle_call_tool, hauth, ha, hk, hke, hd]⟩
          · exact ⟨retrieveSuccessRecord k v idHex now,
              by simp [handle_call_tool, hauth, ha, hk, hke, hd]⟩

/-- C8: given authentication succeeds, `store_data` raises exactly when
key or value is missing or empty, `retrieve_data` raises exactly when
key is missing or empty, and in all non-raising cases both return a
structured result record. -/
theorem invalid_argument_iff (stores : UserStores) (u : Option String)
    (cd : CredData) (envLocal : Bool) (args : Option Args)
    (api_key idHex : String) (now : Int)
    (hauth : get_simple_tools_credentials u envLocal cd = .ok api_key) :
    (raised (handle_call_tool stores u cd envLocal "store_data" args
        idHex now).1 = specStoreArgsInvalid args) ∧
    (raised (handle_call_tool stores u cd envLocal "retrieve_data" args
        idHex now).1 = specRetrieveArgsInvalid args) ∧
    (specStoreArgsInvalid args = false →
      ∃ r, (handle_call_tool stores u cd envLocal "store_data" args
        idHex now).1 = .ok (.record r)) ∧
    (specRetrieveArgsInvalid args = false →
      ∃ r, (handle_call_tool stores u cd envLocal "retrieve_data" args
        idHex now).1 = .ok (.record r)) := by
  rcases store_invalid_cases stores u cd envLocal args api_key idHex now
    hauth with ⟨hs1, hs2⟩ | ⟨hs1, ⟨rs, hs2⟩⟩ <;>
  rcases retrieve_invalid_cases stores u cd envLocal args api_key idHex
      now hauth with ⟨hr1, hr2⟩ | ⟨hr1, ⟨rr, hr2⟩⟩ <;>
    refine ⟨?_, ?_, ?_, ?_⟩ <;>
    simp_all [raised]

/-- C8 witness at concrete valid and invalid argument objects. -/
theorem invalid_argument_iff_witness :
    (raised (handle_call_tool [] (some "u") (.str "k") true "store_data"
        (some [("key", "a")]) "cafebabe" 3).1 =
      specStoreArgsInvalid (some [("key", "a")])) ∧
    (raised (handle_call_tool [] (some "u") (.str "k") true
        "retrieve_data" (some [("key", "a")]) "cafebabe" 3).1 =
      specRetrieveArgsInvalid (some [("key", "a")])) :=
  ⟨(invalid_argument_iff [] (some "u") (.str "k") true
      (some [("key", "a")]) "k" "cafebabe" 3 (by rfl)).1,
    (invalid_argument_iff [] (some "u") (.str "k") true
      (some [("key", "a")]) "k" "cafebabe" 3 (by rfl)).2.1⟩

/-- C9 witness: a concrete `list_data` call returns the store
untouched. -/
theorem non_store_preserves_stores_witness :
    (handle_call_tool [(some "u", [("a", "b")])] (some "u") (.str "k")
        true "list_data" none "cafebabe" 3).2 =
      [(some "u", [("a", "b")])] :=
  non_store_preserves_stores _ _ _ _ _ _ _ _ (by decide)

/-- C1: for every user (identified, as in every server the framework
creates for a real user, by a non-empty string), given authentication
succeeds for both calls, `store_data key value` with non-empty key and
value followed by `retrieve_data key` returns the success record
carrying exactly the stored value.  The degenerate falsy identifier is
the subject of `falsy_user_store_lost`. -/
theorem store_then_retrieve (stores : UserStores) (u : Option String)
    (cd1 cd2 : CredData) (e1 e2 : Bool) (k v a1 a2 i1 i2 : String)
    (t1 t2 : Int)
    (hu : truthyUser u = true) (hk : k ≠ "") (hv : v ≠ "")
    (h1 : get_simple_tools_credentials u e1 cd1 = .ok a1)
    (h2 : get_simple_tools_credentials u e2 cd2 = .ok a2) :
    handle_call_tool
        (handle_call_tool stores u cd1 e1 "store_data"
          (some [("key", k), ("value", v)]) i1 t1).2
        u cd2 e2 "retrieve_data" (some [("key", k)]) i2 t2 =
      (.ok (.record (retrieveSuccessRecord k v i2 t2)),
        (handle_call_tool stores u cd1 e1 "store_data"
          (some [("key", k), ("value", v)]) i1 t1).2) := by
  have hs : (handle_call_tool stores u cd1 e1 "store_data"
      (some [("key", k), ("value", v)]) i1 t1).2 =
      storesInsert stores u
        (kvInsert ((storesLookup stores u).getD []) k v) := by
    simp [handle_call_tool, h1, kvLookup, hk, hv, hu]
  rw [hs]
  simp [handle_call_tool, h2, kvLookup, hk,
    storesLookup_storesInsert_self, kvLookup_kvInsert_self]

/-- C1 witness at a concrete user, key and value. -/
theorem store_then_retrieve_witness :
    handle_call_tool
        (handle_call_tool [] (some "u") (.str "k1") true "store_data"
          (some [("key", "a"), ("value", "b")]) "id1" 1).2
        (some "u") (.str "k2") true "retrieve_data"
        (some [("key", "a")]) "id2" 2 =
      (.ok (.record (retrieveSuccessRecord "a" "b" "id2" 2)),
        (handle_call_tool [] (some "u") (.str "k1") true "store_data"
          (some [("key", "a"), ("value", "b")]) "id1" 1).2) :=
  store_then_retrieve [] (some "u") (.str "k1") (.str "k2") true true
    "a" "b" "k1" "k2" "id1" "id2" 1 2 (by decide) (by decide) (by decide)
    (by rfl) (by rfl)

/-- Boundary of the round trip at the falsy empty-string identifier:
with authentication succeeding for both calls and a valid key and
value, store followed by retrieve yields `not_found` (the store is
dropped, as `falsy_user_store_lost` shows in general). -/
theorem empty_user_round_trip_not_found :
    handle_call_tool
        (handle_call_tool [] (some "") (.str "k1") true "store_data"
          (some [("key", "a"), ("value", "b")]) "id1" 1).2
        (some "") (.str "k2") true "retrieve_data"
        (some [("key", "a")]) "id2" 2 =
      (.ok (.record (retrieveNotFoundRecord "a" "id2" 2)), []) := by
  rfl

/-- Keys of an updated table: updating an existing key keeps the key
list, inserting a fresh key appends it. -/
theorem kvInsert_keys (t : KVTable) (k v : String) :
    (kvInsert t k v).map Prod.fst =
      if kvLookup t k = none then t.map Prod.fst ++ [k]
      else t.map Prod.fst := by
  rcases h : kvLookup t k with _ | w
  · simp [kvInsert_of_lookup_none t k v h]
  · simp [kvInsert_keys_of_lookup_some t k v w h, h]

/-- C6: for a user with a truthy identifier whose table has no duplicate
keys, storing the same key twice (values `v1` then `v2`) overwrites: a
subsequent retrieve returns only `v2`, and the user's table holds
exactly one entry for that key. -/
theorem store_twice_overwrites (stores : UserStores) (u : Option String)
    (cd1 cd2 cd3 : CredData) (e1 e2 e3 : Bool)
    (k v1 v2 a1 a2 a3 i1 i2 i3 : String) (t1 t2 t3 : Int)
    (hu : truthyUser u = true) (hk : k ≠ "") (hv1 : v1 ≠ "")
    (hv2 : v2 ≠ "")
    (h1 : get_simple_tools_credentials u e1 cd1 = .ok a1)
    (h2 : get_simple_tools_credentials u e2 cd2 = .ok a2)
    (h3 : get_simple_tools_credentials u e3 cd3 = .ok a3)
    (hwf : (((storesLookup stores u).getD []).map Prod.fst).Nodup) :
    handle_call_tool
        ((handle_call_tool
          (handle_call_tool stores u cd1 e1 "store_data"
            (some [("key", k), ("value", v1)]) i1 t1).2
          u cd2 e2 "store_data"
          (some [("key", k), ("value", v2)]) i2 t2).2)
        u cd3 e3 "retrieve_data" (some [("key", k)]) i3 t3 =
      (.ok (.record (retrieveSuccessRecord k v2 i3 t3)),
        (handle_call_tool
          (handle_call_tool stores u cd1 e1 "store_data"
            (some [("key", k), ("value", v1)]) i1 t1).2
          u cd2 e2 "store_data"
          (some [("key", k), ("value", v2)]) i2 t2).2) ∧
    List.count k
        (((storesLookup
          (handle_call_tool
            (handle_call_tool stores u cd1 e1 "store_data"
              (some [("key", k), ("value", v1)]) i1 t1).2
            u cd2 e2 "store_data"
            (some [("key", k), ("value", v2)]) i2 t2).2 u).getD
          []).map Prod.fst) = 1 := by
  have hS1 : (handle_call_tool stores u cd1 e1 "store_data"
      (some [("key", k), ("value", v1)]) i1 t1).2 =
      storesInsert stores u
        (kvInsert ((storesLookup stores u).getD []) k v1) := by
    simp [handle_call_tool, h1, kvLookup, hk, hv1, hu]
  have hS2 : (handle_call_tool
      (handle_call_tool stores u cd1 e1 "store_data"
        (some [("key", k), ("value", v1)]) i1 t1).2
      u cd2 e2 "store_data"
      (some [("key", k), ("value", v2)]) i2 t2).2 =
      storesInsert
        (storesInsert stores u
          (kvInsert ((storesLookup stores u).getD []) k v1)) u
        (kvInsert (kvInsert ((storesLookup stores u).getD []) k v1)
          k v2) := by
    rw [hS1]
    simp [handle_call_tool, h2, kvLookup, hk, hv2, hu,
      storesLookup_storesInsert_self]
  rw [hS2]
  refine ⟨?_, ?_⟩
  · simp [handle_call_tool, h3, kvLookup, hk,
      storesLookup_storesInsert_self, kvLookup_kvInsert_self]
  · rw [storesLookup_storesInsert_self]
    have hkeys2 : (kvInsert (kvInsert ((storesLookup stores u).getD [])
        k v1) k v2).map Prod.fst =
        (kvInsert ((storesLookup stores u).getD []) k v1).map
          Prod.fst := by
      rw [kvInsert_keys]
      simp [kvLookup_kvInsert_self]
    simp only [Option.getD_some, hkeys2]
    rcases h0 : kvLookup ((storesLookup stores u).getD []) k with _ | w
    · have hmem : k ∉ ((storesLookup stores u).getD []).map Prod.fst :=
        (kvLookup_eq_none_iff _ _).mp h0
      rw [kvInsert_keys]
      rw [if_pos h0]
      refine List.count_eq_one_of_mem ?_ (by simp)
      rw [List.nodup_append]
      refine ⟨hwf, List.nodup_singleton k, ?_⟩
      intro x hx hx2
      simp at hx2
      subst hx2
      exact hmem hx
    · have hmem : k ∈ ((storesLookup stores u).getD []).map Prod.fst := by
        by_contra hc
        rw [← kvLookup_eq_none_iff] at hc
        rw [hc] at h0
        cases h0
      rw [kvInsert_keys_of_lookup_some _ _ _ _ h0]
      exact List.count_eq_one_of_mem hwf hmem

/-- C6 witness at a concrete user, key and pair of values. -/
theorem store_twice_overwrites_witness :
    handle_call_tool
        ((handle_call_tool
          (handle_call_tool [] (some "u") (.str "c") true "store_data"
            (some [("key", "a"), ("value", "b1")]) "i1" 1).2
          (some "u") (.str "c") true "store_data"
          (some [("key", "a"), ("value", "b2")]) "i2" 2).2)
        (some "u") (.str "c") true "retrieve_data"
        (some [("key", "a")]) "i3" 3 =
      (.ok (.record (retrieveSuccessRecord "a" "b2" "i3" 3)),
        (handle_call_tool
          (handle_call_tool [] (some "u") (.str "c") true "store_data"
            (some [("key", "a"), ("value", "b1")]) "i1" 1).2
          (some "u") (.str "c") true "store_data"
          (some [("key", "a"), ("value", "b2")]) "i2" 2).2) ∧
    List.count "a"
        (((storesLookup
          (handle_call_tool
            (handle_call_tool [] (some "u") (.str "c") true "store_data"
              (some [("key", "a"), ("value", "b1")]) "i1" 1).2
            (some "u") (.str "c") true "store_data"
            (some [("key", "a"), ("value", "b2")]) "i2" 2).2
          (some "u")).getD []).map Prod.fst) = 1 :=
  store_twice_overwrites [] (some "u") (.str "c") (.str "c") (.str "c")
    true true true "a" "b1" "b2" "c" "c" "c" "i1" "i2" "i3" 1 2 3
    (by decide) (by decide) (by decide) (by decide) (by rfl) (by rfl)
    (by rfl) (by decide)

/-- Run `store_data` once per pair of a list, as a single user (the
scenario behind the list_data count property). -/
def runStoreAll (u : Option String) (cd : CredData) (envLocal : Bool)
    (idHex : String) (now : Int) :
    UserStores → List (String × String) → UserStores
  | stores, [] => stores
  | stores, p :: ps =>
      runStoreAll u cd envLocal idHex now
        ((handle_call_tool stores u cd envLocal "store_data"
          (some [("key", p.1), ("value", p.2)]) idHex now).2) ps

/-- The table of a truthy, authenticated user after a run of stores is
the fold of the updates over the starting table. -/
theorem runStoreAll_table (u : Option String) (cd : CredData) (e : Bool)
    (a i : String) (t : Int)
    (hauth : get_simple_tools_credentials u e cd = .ok a)
    (hu : truthyUser u = true) :
    ∀ (ps : List (String × String)) (stores : UserStores),
      (∀ p ∈ ps, p.1 ≠ "" ∧ p.2 ≠ "") →
      (storesLookup (runStoreAll u cd e i t stores ps) u).getD [] =
        ps.foldl (fun acc p => kvInsert acc p.1 p.2)
          ((storesLookup stores u).getD []) := by
  intro ps
  induction ps with
  | nil => intro stores _; rfl
  | cons p ps ih =>
      intro stores hvalid
      have hp := hvalid p (by simp)
      have hstep : (handle_call_tool stores u cd e "store_data"
          (some [("key", p.1), ("value", p.2)]) i t).2 =
          storesInsert stores u
            (kvInsert ((storesLookup stores u).getD []) p.1 p.2) := by
        simp [handle_call_tool, hauth, kvLookup, hp.1, hp.2, hu]
      rw [runStoreAll, hstep, List.foldl_cons,
        ih _ (fun q hq => hvalid q (by simp [hq])),
        storesLookup_storesInsert_self]
      rfl

/-- Folding fresh inserts with pairwise-distinct keys appends the
pairs. -/
theorem foldl_kvInsert_fresh :
    ∀ (ps : List (String × String)) (acc : KVTable),
      (ps.map Prod.fst).Nodup →
      (∀ p ∈ ps, p.1 ∉ acc.map Prod.fst) →
      ps.foldl (fun acc p => kvInsert acc p.1 p.2) acc = acc ++ ps := by
  intro ps
  induction ps with
  | nil => intro acc _ _; simp
  | cons p ps ih =>
      intro acc hnd hfresh
      have hnd2 : (p.1 :: ps.map Prod.fst).Nodup := by simpa using hnd
      have h1 : kvInsert acc p.1 p.2 = acc ++ [p] := by
        rw [kvInsert_of_lookup_none _ _ _
          ((kvLookup_eq_none_iff _ _).mpr (hfresh p (by simp)))]
      rw [List.foldl_cons, h1, ih (acc ++ [p])
        hnd2.of_cons
        ?_]
      · simp
      · intro q hq
        simp only [List.map_append, List.mem_append, not_or]
        refine ⟨hfresh q (by simp [hq]), ?_⟩
        have hne : q.1 ≠ p.1 := by
          have := (List.nodup_cons.mp hnd2).1
          intro hc
          exact this (hc ▸ (List.mem_map_of_mem Prod.fst hq))
        simp [hne]

/-- C4: for an authenticated (truthy) user with zero stored keys,
`list_data` returns the `empty` record with count 0 and empty data;
after storing N pairs with distinct non-empty keys (and non-empty
values), `list_data` returns a `success` record with count N and data
holding exactly those N entries. -/
theorem list_data_counts (stores : UserStores) (u : Option String)
    (cd : CredData) (e : Bool) (a i i2 : String) (t t2 : Int)
    (ps : List (String × String))
    (hauth : get_simple_tools_credentials u e cd = .ok a)
    (hu : truthyUser u = true)
    (hempty : (storesLookup stores u).getD [] = []) :
    (handle_call_tool stores u cd e "list_data" none i t =
        (.ok (.record (listEmptyRecord i t)), stores) ∧
      (listEmptyRecord i t).status = "empty" ∧
      (listEmptyRecord i t).count = some 0 ∧
      (listEmptyRecord i t).data = some []) ∧
    ((ps.map Prod.fst).Nodup → (∀ p ∈ ps, p.1 ≠ "" ∧ p.2 ≠ "") →
      ps ≠ [] →
      ∃ r, handle_call_tool (runStoreAll u cd e i t stores ps) u cd e
          "list_data" none i2 t2 =
          (.ok (.record r), runStoreAll u cd e i t stores ps) ∧
        r.status = "success" ∧ r.count = some ps.length ∧
        r.data = some ps) := by
  constructor
  · exact ⟨by simp [handle_call_tool, hauth, hempty], rfl, rfl, rfl⟩
  · intro hnd hvalid hne
    have htable : (storesLookup (runStoreAll u cd e i t stores ps)
        u).getD [] = ps := by
      rw [runStoreAll_table u cd e a i t hauth hu ps stores hvalid,
        hempty, foldl_kvInsert_fresh ps [] hnd (by simp)]
      simp
    refine ⟨listSuccessRecord ps i2 t2, ?_, rfl, rfl, ?_⟩
    · simp [handle_call_tool, hauth, htable, hne]
    · simp [listSuccessRecord, htable]

/-- C4 witness: empty table lists as `empty`; after two stores the list
has count 2 and exactly the two entries. -/
theorem list_data_counts_witness :
    (handle_call_tool [] (some "u") (.str "c") true "list_data" none
        "i" 5 =
      (.ok (.record (listEmptyRecord "i" 5)), []) ∧
      (listEmptyRecord "i" 5).status = "empty" ∧
      (listEmptyRecord "i" 5).count = some 0 ∧
      (listEmptyRecord "i" 5).data = some []) ∧
    (∃ r, handle_call_tool
        (runStoreAll (some "u") (.str "c") true "i" 5 []
          [("a", "1"), ("b", "2")])
        (some "u") (.str "c") true "list_data" none "j" 6 =
        (.ok (.record r),
          runStoreAll (some "u") (.str "c") true "i" 5 []
            [("a", "1"), ("b", "2")]) ∧
      r.status = "success" ∧ r.count = some 2 ∧
      r.data = some [("a", "1"), ("b", "2")]) :=
  ⟨(list_data_counts [] (some "u") (.str "c") true "c" "i" "j" 5 6
      [("a", "1"), ("b", "2")] (by rfl) (by decide) (by rfl)).1,
    (list_data_counts [] (some "u") (.str "c") true "c" "i" "j" 5 6
      [("a", "1"), ("b", "2")] (by rfl) (by decide) (by rfl)).2
      (by decide) (by decide) (by decide)⟩

/-- The global store after any call is either unchanged or an update of
the calling user's own entry. -/
theorem handle_snd_cases (stores : UserStores) (u : Option String)
    (cd : CredData) (e : Bool) (n : String) (args : Option Args)
    (i : String) (t : Int) :
    (handle_call_tool stores u cd e n args i t).2 = stores ∨
      ∃ tb, (handle_call_tool stores u cd e n args i t).2 =
        storesInsert stores u tb := by
  rcases hga : get_simple_tools_credentials u e cd with m | k <;>
    simp only [handle_call_tool, hga]
  · exact Or.inl trivial
  · repeat' split
    all_goals first
      | exact Or.inl rfl
      | exact Or.inl trivial
      | exact Or.inr ⟨_, rfl⟩

/-- The response of a call, and the caller's own entry, depend on the
global store only through the caller's entry. -/
theorem handle_fst_congr (s1 s2 : UserStores) (u : Option String)
    (cd : CredData) (e : Bool) (n : String) (args : Option Args)
    (i : String) (t : Int)
    (h : storesLookup s1 u = storesLookup s2 u) :
    (handle_call_tool s1 u cd e n args i t).1 =
      (handle_call_tool s2 u cd e n args i t).1 := by
  simp only [handle_call_tool, h]
  repeat' split
  all_goals rfl

/-- C5: a tool call performed as user `A` never writes user `B`'s table
(for `B ≠ A`), and every subsequent call performed as `B` returns
exactly the response it would have returned before `A`'s call: data
stored as one user is never visible to another. -/
theorem user_isolation (stores : UserStores) (A B : Option String)
    (hne : B ≠ A) (cdA : CredData) (eA : Bool) (nA : String)
    (argsA : Option Args) (iA : String) (tA : Int) :
    storesLookup ((handle_call_tool stores A cdA eA nA argsA iA tA).2)
        B = storesLookup stores B ∧
    ∀ (cdB : CredData) (eB : Bool) (nB : String) (argsB : Option Args)
        (iB : String) (tB : Int),
      (handle_call_tool
          ((handle_call_tool stores A cdA eA nA argsA iA tA).2)
          B cdB eB nB argsB iB tB).1 =
        (handle_call_tool stores B cdB eB nB argsB iB tB).1 := by
  have hframe : storesLookup
      ((handle_call_tool stores A cdA eA nA argsA iA tA).2) B =
      storesLookup stores B := by
    rcases handle_snd_cases stores A cdA eA nA argsA iA tA with
      h | ⟨tb, h⟩
    · rw [h]
    · rw [h, storesLookup_storesInsert_ne stores A B tb
        (fun hc => hne hc.symm)]
  exact ⟨hframe, fun cdB eB nB argsB iB tB =>
    handle_fst_congr _ _ B cdB eB nB argsB iB tB hframe⟩

/-- C5 witness: a store as user "alice" is invisible to a retrieve as
user "bob". -/
theorem user_isolation_witness :
    storesLookup ((handle_call_tool [] (some "alice") (.str "c") true
        "store_data" (some [("key", "a"), ("value", "b")]) "i" 1).2)
        (some "bob") = storesLookup [] (some "bob") ∧
    ∀ (cdB : CredData) (eB : Bool) (nB : String) (argsB : Option Args)
        (iB : String) (tB : Int),
      (handle_call_tool
          ((handle_call_tool [] (some "alice") (.str "c") true
            "store_data" (some [("key", "a"), ("value", "b")]) "i" 1).2)
          (some "bob") cdB eB nB argsB iB tB).1 =
        (handle_call_tool [] (some "bob") cdB eB nB argsB iB tB).1 :=
  user_isolation [] (some "alice") (some "bob") (by decide) (.str "c")
    true "store_data" (some [("key", "a"), ("value", "b")]) "i" 1

/-- C10: when the server's user identifier is falsy (Python `None` or
the empty string) and, as in every reachable state, that identifier is
not a key of the global store, a `store_data` with valid key and value
still returns the `success` record but changes nothing: the global
store is untouched and a subsequent `retrieve_data` of the key returns
`not_found`.  Moreover `create_server` does not register such an
identifier. -/
theorem falsy_user_store_lost (stores : UserStores) (u : Option String)
    (cd1 cd2 : CredData) (e1 e2 : Bool) (k v a1 a2 i1 i2 : String)
    (t1 t2 : Int)
    (hu : truthyUser u = false)
    (habsent : storesLookup stores u = none)
    (hk : k ≠ "") (hv : v ≠ "")
    (h1 : get_simple_tools_credentials u e1 cd1 = .ok a1)
    (h2 : get_simple_tools_credentials u e2 cd2 = .ok a2) :
    create_server_stores stores u = stores ∧
    handle_call_tool stores u cd1 e1 "store_data"
        (some [("key", k), ("value", v)]) i1 t1 =
      (.ok (.record (storeRecord k v i1 t1)), stores) ∧
    handle_call_tool stores u cd2 e2 "retrieve_data"
        (some [("key", k)]) i2 t2 =
      (.ok (.record (retrieveNotFoundRecord k i2 t2)), stores) := by
  refine ⟨by simp [create_server_stores, hu], ?_, ?_⟩
  · simp [handle_call_tool, h1, kvLookup, hk, hv, hu, habsent]
  · simp [handle_call_tool, h2, kvLookup, hk, habsent]

/-- C10 witness with the empty-string user identifier. -/
theorem falsy_user_store_lost_witness :
    create_server_stores [(some "u", [("x", "y")])] (some "") =
        [(some "u", [("x", "y")])] ∧
    handle_call_tool [(some "u", [("x", "y")])] (some "") (.str "c")
        true "store_data" (some [("key", "a"), ("value", "b")]) "i" 1 =
      (.ok (.record (storeRecord "a" "b" "i" 1)),
        [(some "u", [("x", "y")])]) ∧
    handle_call_tool [(some "u", [("x", "y")])] (some "") (.str "c")
        true "retrieve_data" (some [("key", "a")]) "j" 2 =
      (.ok (.record (retrieveNotFoundRecord "a" "j" 2)),
        [(some "u", [("x", "y")])]) :=
  falsy_user_store_lost [(some "u", [("x", "y")])] (some "")
    (.str "c") (.str "c") true true "a" "b" "c" "c" "i" "j" 1 2
    (by decide) (by decide) (by decide) (by decide) (by rfl) (by rfl)
